import Mathlib

/-!
Shallow embedding of cln-zapper-rs (src/main.rs): a CLN plugin that watches
paid invoices, decodes zap requests embedded in invoice descriptions, builds
signed zap receipt notes and broadcasts them to relays.

Cryptographic primitives (JSON event parsing, schnorr signature creation and
verification, event-id hashing) are opaque capabilities in the source (the
nostr crate); they are modelled as an explicit record of abstract functions
threaded through the definitions.  File I/O for the checkpoint is modelled by
an explicit persisted value in the loop state together with an ordered effect
trace; the websocket transport of the broadcaster is modelled by an
environment assigning each relay endpoint a behaviour.
-/

namespace ClnZapper

/-- Model of nostr Tag variants used by the plugin.  The nostr crate has many
more variants; all of them are collapsed into the catch-all constructor, which
is all the source code distinguishes (it matches only on the listed kinds). -/
inductive Tag where
  | PubKey (pk : String) (relay : Option String)
  | Event (eventId : String) (relay : Option String) (marker : Option String)
  | Relays (urls : List String)
  | Amount (msat : Nat)
  | Bolt11 (bolt11 : String)
  | Description (description : String)
  | Preimage (preimage : String)
  | Generic (kind : String) (values : List String)
deriving DecidableEq, Repr

/-- Model of a nostr Event (nostr crate): id and sig are opaque hex strings
produced by the abstract crypto capabilities. -/
structure Event where
  id : String
  pubkey : String
  created_at : Nat
  kind : Nat
  tags : List Tag
  content : String
  sig : String
deriving DecidableEq, Repr

/-- Model of nostr Keys: a secret/public key pair as opaque strings. -/
structure Keys where
  secret_key : String
  public_key : String
deriving DecidableEq, Repr

/-- Opaque cryptographic and serialization capabilities of the nostr crate,
as used by main.rs: Event.from_json, Event.verify (checks the signature
against the event's own declared pubkey), the event-id hash and the schnorr
signature used by EventBuilder.to_event, and the wall-clock timestamp the
builder stamps on the created event. -/
structure Crypto where
  parseEvent : String → Option Event
  verifyEvent : Event → Bool
  computeId : String → Nat → Nat → List Tag → String → String
  signMsg : String → String → String
  now : Nat

/-- Status enum of a CLN waitanyinvoice response. -/
inductive WaitanyinvoiceStatus where
  | PAID
  | EXPIRED
deriving DecidableEq, Repr

/-- Model of cln_rpc WaitanyinvoiceResponse.  amount_msat and
amount_received_msat carry the raw millisatoshi value (Amount.msat());
payment_preimage is the raw byte list. -/
structure WaitanyinvoiceResponse where
  label : String
  description : String
  payment_hash : String
  status : WaitanyinvoiceStatus
  expires_at : Nat
  amount_msat : Option Nat
  bolt11 : Option String
  bolt12 : Option String
  pay_index : Option Nat
  amount_received_msat : Option Nat
  paid_at : Option Nat
  payment_preimage : Option (List Nat)
deriving DecidableEq, Repr

/-- The errors produced by decode_zap_req and create_zap_note (anyhow
errors in the source, distinguished here by their message). -/
inductive ZapError where
  | malformedEvent
  | invalidSignature
  | pTagCount
  | eTagCount
  | noBolt11
deriving DecidableEq, Repr

/-- struct ZapRequestInfo of main.rs. -/
structure ZapRequestInfo where
  zap_request : Event
  p : Tag
  e : Option Tag
  relays : List String
  amount : Option Nat
deriving DecidableEq, Repr

/-- The filter predicate matches(t, Tag::PubKey(_, _)). -/
def isPTag : Tag → Bool
  | Tag.PubKey _ _ => true
  | _ => false

/-- The filter predicate matches(t, Tag::Event(_, _, _)). -/
def isETag : Tag → Bool
  | Tag.Event _ _ _ => true
  | _ => false

/-- fn decode_zap_req of main.rs: parse the description as a signed event,
verify its signature, require exactly one p tag, at most one e tag, collect
the relay list (deduplicated, as the source collects into a HashSet) and the
first amount tag. -/
def decode_zap_req (C : Crypto) (description : String) :
    Except ZapError ZapRequestInfo :=
  match C.parseEvent description with
  | none => .error .malformedEvent
  | some zap_request =>
    if C.verifyEvent zap_request then
      match zap_request.tags.filter isPTag with
      | [p_tag] =>
        match zap_request.tags.filter isETag with
        | [] =>
          .ok { zap_request := zap_request, p := p_tag, e := none,
                relays := ((zap_request.tags.filterMap fun t =>
                  match t with
                  | Tag.Relays values => some values
                  | _ => none).flatten).eraseDups,
                amount := zap_request.tags.findSome? fun t =>
                  match t with
                  | Tag.Amount a => some a
                  | _ => none }
        | [e_tag] =>
          .ok { zap_request := zap_request, p := p_tag, e := some e_tag,
                relays := ((zap_request.tags.filterMap fun t =>
                  match t with
                  | Tag.Relays values => some values
                  | _ => none).flatten).eraseDups,
                amount := zap_request.tags.findSome? fun t =>
                  match t with
                  | Tag.Amount a => some a
                  | _ => none }
        | _ => .error .eTagCount
      | _ => .error .pTagCount
    else .error .invalidSignature

/-- Lowercase hex digit of a value below 16 (ToHex of the nostr prelude). -/
def hexDigit (n : Nat) : Char :=
  if n < 10 then Char.ofNat (48 + n) else Char.ofNat (87 + n)

/-- Two lowercase hex digits of one byte. -/
def byteToHex (b : Nat) : List Char :=
  [hexDigit (b / 16 % 16), hexDigit (b % 16)]

/-- to_hex() of a byte vector: lowercase hex string. -/
def to_hex (bytes : List Nat) : String :=
  String.mk (bytes.map byteToHex).flatten

/-- nostr Kind::Zap, the kind of the published zap receipt note. -/
def zapKind : Nat := 9735

/-- EventBuilder::new(kind, content, tags).to_event(keys): stamps the current
time, computes the canonical id over (pubkey, created_at, kind, tags,
content) and signs it; the tags are kept exactly as given. -/
def to_event (C : Crypto) (keys : Keys) (kind : Nat) (content : String)
    (tags : List Tag) : Event :=
  { id := C.computeId keys.public_key C.now kind tags content,
    pubkey := keys.public_key,
    created_at := C.now,
    kind := kind,
    tags := tags,
    content := content,
    sig := C.signMsg keys.secret_key
      (C.computeId keys.public_key C.now kind tags content) }

/-- fn create_zap_note of main.rs: tags start with the p tag, then the e tag
when present; fail when the invoice has no bolt11; then append the bolt11
tag, the description tag holding the invoice description string unchanged,
and, when a payment preimage is present, its hex encoding; finally sign. -/
def create_zap_note (C : Crypto) (keys : Keys)
    (zap_request_info : ZapRequestInfo)
    (invoice : WaitanyinvoiceResponse) : Except ZapError Event :=
  let tags : List Tag :=
    match zap_request_info.e with
    | some e => [zap_request_info.p, e]
    | none => [zap_request_info.p]
  match invoice.bolt11 with
  | none => .error .noBolt11
  | some bolt11 =>
    let tags := tags ++ [Tag.Bolt11 bolt11]
    let tags := tags ++ [Tag.Description invoice.description]
    let tags :=
      match invoice.payment_preimage with
      | some pre_image => tags ++ [Tag.Preimage (to_hex pre_image)]
      | none => tags
    .ok (to_event C keys zapKind "" tags)

/-- Behaviour of one relay endpoint for one broadcast: the connection attempt
fails, or the connection succeeds and the send fails, or both succeed. -/
inductive RelayBehavior where
  | connectFail
  | sendFail
  | sendOk
deriving DecidableEq, Repr

/-- Outcome of fn broadcast_zap_note: Ok(()), the Err returned when the
note fails self-verification, or the panic raised by the expect on
write_message when a send fails. -/
inductive BroadcastOutcome where
  | ok
  | verifyFailed
  | panicked (relay : String)
deriving DecidableEq, Repr

/-- The for-loop of broadcast_zap_note over the relay list: a failed
connection is logged and skipped (continue); a failed send panics via
expect, abandoning the remaining relays; a successful send records the
frame as sent.  Returns (outcome, relays whose connection was attempted in
order, relays that received the frame in order). -/
def broadcast_loop (env : String → RelayBehavior) :
    List String → BroadcastOutcome × List String × List String
  | [] => (.ok, [], [])
  | relay :: rest =>
    match env relay with
    | .connectFail =>
      let r := broadcast_loop env rest
      (r.1, relay :: r.2.1, r.2.2)
    | .sendFail => (.panicked relay, [relay], [])
    | .sendOk =>
      let r := broadcast_loop env rest
      (r.1, relay :: r.2.1, relay :: r.2.2)

/-- fn broadcast_zap_note of main.rs: first verifies the note (the question
mark operator makes a verification failure an error of the whole call), then
iterates over the relay set.  The HashSet iteration order is modelled by the
order of the relay list. -/
def broadcast_zap_note (C : Crypto) (env : String → RelayBehavior)
    (relays : List String) (zap_note : Event) :
    BroadcastOutcome × List String × List String :=
  if C.verifyEvent zap_note then broadcast_loop env relays
  else (.verifyFailed, [], [])

/-- One response of the backend long-poll call WaitAnyInvoice: an RPC error
or an invoice. -/
inductive BackendResp where
  | rpcError
  | invoice (inv : WaitanyinvoiceResponse)
deriving DecidableEq, Repr

/-- Ordered effects of one iteration of the invoice_stream loop body:
a checkpoint write of the given index (write_last_pay_index), the fixed
sleep on RPC error in seconds, and the decode attempt on the description
(with its success flag).  The order of the list is the order the source
performs them in. -/
inductive LoopEffect where
  | wrote (idx : Nat)
  | sleptSecs (n : Nat)
  | decodeAttempted (ok : Bool)
deriving DecidableEq, Repr

/-- What one loop-body iteration does with the response: retry the same
request (RPC error path), consume the invoice without yielding (non-zap,
amount mismatch), or yield the decoded zap with its invoice to the consumer
in main, which builds and broadcasts the note. -/
inductive StepOut where
  | retry
  | skip
  | yielded (zap : ZapRequestInfo) (invoice : WaitanyinvoiceResponse)
deriving DecidableEq, Repr

/-- State threaded through the unfold in invoice_stream: the cursor
last_pay_idx passed to WaitAnyInvoice, and the content of the checkpoint
file written by write_last_pay_index (none when never written). -/
structure LoopState where
  cursor : Option Nat
  persisted : Option Nat
deriving DecidableEq, Repr

/-- One iteration of the loop body inside invoice_stream of main.rs.
On RPC error: log, sleep one second, retry with the state unchanged.
On an invoice: set the cursor to the invoice pay_index, and when that index
is present write it to the checkpoint file; then decode the description;
on decode failure consume silently; on success compare the zap amount tag
with the invoice amount when both are present and consume silently on
mismatch; otherwise yield the pair.  The effect trace lists the checkpoint
write and then the decode attempt, in source order. -/
def invoice_stream_step (C : Crypto) (st : LoopState) (resp : BackendResp) :
    LoopState × StepOut × List LoopEffect :=
  match resp with
  | .rpcError => (st, .retry, [.sleptSecs 1])
  | .invoice invoice =>
    let writes : List LoopEffect :=
      match invoice.pay_index with
      | some idx => [.wrote idx]
      | none => []
    let st' : LoopState :=
      { cursor := invoice.pay_index,
        persisted :=
          match invoice.pay_index with
          | some idx => some idx
          | none => st.persisted }
    let out : StepOut :=
      match decode_zap_req C invoice.description with
      | .error _ => .skip
      | .ok zap =>
        match zap.amount, invoice.amount_msat with
        | some zap_request_amount, some invoice_amount =>
          if zap_request_amount ≠ invoice_amount then .skip
          else .yielded zap invoice
        | _, _ => .yielded zap invoice
    let dec_ok : Bool :=
      match decode_zap_req C invoice.description with
      | .ok _ => true
      | .error _ => false
    (st', out, writes ++ [.decodeAttempted dec_ok])

/-- The sequence of loop states after each backend response of a run. -/
def runStates (C : Crypto) (st : LoopState) :
    List BackendResp → List LoopState
  | [] => []
  | r :: rs =>
    let st1 := (invoice_stream_step C st r).1
    st1 :: runStates C st1 rs

/-- The pay indexes observed by the loop over a run, in order. -/
def observedIdxs : List BackendResp → List Nat
  | [] => []
  | .rpcError :: rs => observedIdxs rs
  | .invoice inv :: rs =>
    match inv.pay_index with
    | some idx => idx :: observedIdxs rs
    | none => observedIdxs rs

/-- After each response, the most recently observed pay index (the starting
index while none has been observed yet). -/
def lastObservedFrom (n : Nat) : List BackendResp → List Nat
  | [] => []
  | .rpcError :: rs => n :: lastObservedFrom n rs
  | .invoice inv :: rs =>
    match inv.pay_index with
    | some idx => idx :: lastObservedFrom idx rs
    | none => n :: lastObservedFrom n rs

/-- The backend contract of WaitAnyInvoice (spec section 6): called with
cursor c it only returns invoices whose pay index is present and greater
than c; an RPC error leaves the cursor unchanged; after an invoice the loop
calls again with that invoice's pay index as the cursor. -/
def ValidFrom : Option Nat → List BackendResp → Prop
  | _, [] => True
  | cursor, .rpcError :: rs => ValidFrom cursor rs
  | cursor, .invoice inv :: rs =>
    (match cursor, inv.pay_index with
     | some c, some idx => c < idx
     | none, some _ => True
     | _, none => False) ∧ ValidFrom inv.pay_index rs

/-! Concrete fixtures used by witnesses and counterexamples. -/

/-- A signing key pair fixture. -/
def keys0 : Keys := { secret_key := "sk", public_key := "pk" }

/-- A recipient (p) tag fixture. -/
def tagP0 : Tag := Tag.PubKey "aa" none

/-- A referenced-event (e) tag fixture. -/
def tagE0 : Tag := Tag.Event "ee" none none

/-- A zap request event with exactly one p tag and no other tags. -/
def ev0 : Event :=
  { id := "i0", pubkey := "pk", created_at := 0, kind := 9734,
    tags := [tagP0], content := "", sig := "s0" }

/-- A zap request event with one p tag and an amount tag of 50000 msat. -/
def evAmt : Event :=
  { id := "i1", pubkey := "pk", created_at := 0, kind := 9734,
    tags := [tagP0, Tag.Amount 50000], content := "", sig := "s1" }

/-- Concrete crypto capabilities: the description "z" parses to ev0 and
"za" to evAmt, every signature verifies. -/
def crypto0 : Crypto :=
  { parseEvent := fun s =>
      if s = "z" then some ev0 else if s = "za" then some evAmt else none,
    verifyEvent := fun _ => true,
    computeId := fun _ _ _ _ _ => "nid",
    signMsg := fun _ _ => "nsig",
    now := 7 }

/-- Same capabilities but every signature verification fails. -/
def cryptoBad : Crypto := { crypto0 with verifyEvent := fun _ => false }

/-- The decode result of description "z" under crypto0. -/
def zri0 : ZapRequestInfo :=
  { zap_request := ev0, p := tagP0, e := none, relays := [], amount := none }

/-- The decode result of description "za" under crypto0. -/
def zriAmt : ZapRequestInfo :=
  { zap_request := evAmt, p := tagP0, e := none, relays := [],
    amount := some 50000 }

/-- An EXPIRED invoice whose description decodes as the zap request ev0. -/
def inv0 : WaitanyinvoiceResponse :=
  { label := "l0", description := "z", payment_hash := "h0",
    status := .EXPIRED, expires_at := 0, amount_msat := some 5000,
    bolt11 := some "lnb", bolt12 := none, pay_index := some 1,
    amount_received_msat := none, paid_at := none,
    payment_preimage := none }

/-- A PAID invoice whose amount matches the request amount of 50000 msat. -/
def invAmtOk : WaitanyinvoiceResponse :=
  { label := "l1", description := "za", payment_hash := "h1",
    status := .PAID, expires_at := 0, amount_msat := some 50000,
    bolt11 := some "lnb", bolt12 := none, pay_index := some 2,
    amount_received_msat := some 50000, paid_at := some 1,
    payment_preimage := some [171] }

/-- A PAID invoice whose amount 49999 msat mismatches the request. -/
def invAmtBad : WaitanyinvoiceResponse :=
  { invAmtOk with
    label := "l2", amount_msat := some 49999, pay_index := some 3 }

/-- A PAID invoice for the amount-carrying request with no amount field. -/
def invAmtNone : WaitanyinvoiceResponse :=
  { invAmtOk with label := "l3", amount_msat := none, pay_index := some 4 }

/-- The zap note built from zriAmt and invAmtOk. -/
def noteAmt : Event :=
  to_event crypto0 keys0 zapKind ""
    [tagP0, Tag.Bolt11 "lnb", Tag.Description "za", Tag.Preimage "ab"]

/-- The initial loop state after reading a checkpoint of 0. -/
def st0 : LoopState := { cursor := some 0, persisted := some 0 }

/-- A non-zap invoice with pay index 3 (description does not parse). -/
def invA : WaitanyinvoiceResponse :=
  { inv0 with
    label := "la", description := "x", status := .PAID,
    pay_index := some 3 }

/-- A non-zap invoice with pay index 5. -/
def invB : WaitanyinvoiceResponse :=
  { invA with label := "lb", pay_index := some 5 }

/-- A backend run: an invoice, an RPC error, another invoice. -/
def run0 : List BackendResp := [.invoice invA, .rpcError, .invoice invB]

/-! Theorems. -/

/-- C9: on a backend error the loop leaves its state (in particular the
cursor passed to WaitAnyInvoice) unchanged, sleeps the fixed one-second
interval, and retries: the next iteration reissues the same request with
the same cursor, and the cursor never advances on a failed call. -/
theorem rpc_error_retries_same_cursor (C : Crypto) (st : LoopState) :
    invoice_stream_step C st .rpcError =
      (st, StepOut.retry, [LoopEffect.sleptSecs 1]) := rfl

/-- C1: for every invoice the backend returns (whatever its status and
whether or not its description decodes as a zap request), the loop sets the
cursor to the invoice's pay index and persists the checkpoint to that index,
and the effect trace shows the checkpoint write strictly before the decode
attempt; building and broadcasting only ever happen after the step yields,
hence after the write. -/
theorem checkpoint_before_decode (C : Crypto) (st : LoopState)
    (inv : WaitanyinvoiceResponse) (idx : Nat)
    (h : inv.pay_index = some idx) :
    (invoice_stream_step C st (.invoice inv)).1 =
      { cursor := some idx, persisted := some idx }
    ∧ ∃ dec, (invoice_stream_step C st (.invoice inv)).2.2 =
        [LoopEffect.wrote idx, LoopEffect.decodeAttempted dec] := by
  constructor
  · simp [invoice_stream_step, h]
  · rcases hdec : decode_zap_req C inv.description with e | zap
    · exact ⟨false, by simp [invoice_stream_step, h, hdec]⟩
    · exact ⟨true, by simp [invoice_stream_step, h, hdec]⟩

/-- Witness for C1 at a concrete EXPIRED, zap-decodable invoice. -/
theorem checkpoint_before_decode_witness :
    inv0.pay_index = some 1
    ∧ (invoice_stream_step crypto0 st0 (.invoice inv0)).1 =
        { cursor := some 1, persisted := some 1 }
    ∧ (invoice_stream_step crypto0 st0 (.invoice inv0)).2.2 =
        [LoopEffect.wrote 1, LoopEffect.decodeAttempted true] :=
  ⟨rfl, (checkpoint_before_decode crypto0 st0 inv0 1 rfl).1, by decide⟩

/-- C2 counterexample: the loop never inspects the invoice status.  This
concrete EXPIRED invoice has its description decoded into a zap request and
is yielded for receipt building, and the receipt is in fact built, contrary
to the claim that EXPIRED invoices are discarded before decoding. -/
theorem expired_invoice_processed :
    inv0.status = WaitanyinvoiceStatus.EXPIRED
    ∧ (invoice_stream_step crypto0 st0 (.invoice inv0)).2.1 =
        StepOut.yielded zri0 inv0
    ∧ create_zap_note crypto0 keys0 zri0 inv0 =
        .ok (to_event crypto0 keys0 zapKind ""
          [tagP0, Tag.Bolt11 "lnb", Tag.Description "z"]) :=
  ⟨rfl, by decide, rfl⟩

/-- C2 amended: the loop does not inspect the invoice status at all; an
EXPIRED invoice is handled exactly like a PAID one — the checkpoint still
advances, the description is decoded, and when it decodes as a zap request
that passes the amount gate the invoice is yielded for receipt building and
broadcast. -/
theorem expired_treated_as_paid (C : Crypto) (st : LoopState)
    (inv : WaitanyinvoiceResponse) (zap : ZapRequestInfo)
    (_hst : inv.status = WaitanyinvoiceStatus.EXPIRED)
    (hdec : decode_zap_req C inv.description = .ok zap)
    (hamt : ∀ a m, zap.amount = some a → inv.amount_msat = some m → a = m) :
    (invoice_stream_step C st (.invoice inv)).2.1 =
      StepOut.yielded zap inv := by
  rcases hza : zap.amount with _ | a
  · rcases him : inv.amount_msat with _ | m <;>
      simp [invoice_stream_step, hdec, hza, him]
  · rcases him : inv.amount_msat with _ | m
    · simp [invoice_stream_step, hdec, hza, him]
    · have : a = m := hamt a m hza him
      simp [invoice_stream_step, hdec, hza, him, this]

/-- Witness for the amended C2 at the concrete EXPIRED invoice. -/
theorem expired_treated_as_paid_witness :
    inv0.status = WaitanyinvoiceStatus.EXPIRED
    ∧ decode_zap_req crypto0 inv0.description = .ok zri0
    ∧ (invoice_stream_step crypto0 st0 (.invoice inv0)).2.1 =
        StepOut.yielded zri0 inv0 :=
  ⟨rfl, rfl,
    expired_treated_as_paid crypto0 st0 inv0 zri0 rfl rfl
      (fun _ _ ha _ => Option.noConfusion ha)⟩

/-- C10: when the decoded request carries an amount tag but the invoice
reports no amount (amount_msat absent), the comparison is skipped and the
invoice is yielded for receipt building as if the amounts matched. -/
theorem missing_invoice_amount_skips_gate (C : Crypto) (st : LoopState)
    (inv : WaitanyinvoiceResponse) (zap : ZapRequestInfo) (a : Nat)
    (hdec : decode_zap_req C inv.description = .ok zap)
    (hza : zap.amount = some a)
    (him : inv.amount_msat = none) :
    (invoice_stream_step C st (.invoice inv)).2.1 =
      StepOut.yielded zap inv := by
  simp [invoice_stream_step, hdec, hza, him]

/-- Witness for C10 at a concrete invoice with no amount field. -/
theorem missing_invoice_amount_skips_gate_witness :
    decode_zap_req crypto0 invAmtNone.description = .ok zriAmt
    ∧ zriAmt.amount = some 50000
    ∧ invAmtNone.amount_msat = none
    ∧ (invoice_stream_step crypto0 st0 (.invoice invAmtNone)).2.1 =
        StepOut.yielded zriAmt invAmtNone :=
  ⟨rfl, rfl, rfl,
    missing_invoice_amount_skips_gate crypto0 st0 invAmtNone zriAmt 50000
      rfl rfl rfl⟩

/-- C5: when the decoded request carries an amount tag and the invoice
reports a paid amount, a mismatch skips the invoice (no yield, so main never
builds a receipt nor broadcasts for it), while exact equality yields it, and
the receipt then builds successfully whenever the invoice has a bolt11. -/
theorem amount_gate (C : Crypto) (keys : Keys) (st : LoopState)
    (inv : WaitanyinvoiceResponse) (zap : ZapRequestInfo) (a m : Nat)
    (hdec : decode_zap_req C inv.description = .ok zap)
    (hza : zap.amount = some a)
    (him : inv.amount_msat = some m) :
    (a ≠ m → (invoice_stream_step C st (.invoice inv)).2.1 = StepOut.skip)
    ∧ (a = m →
        (invoice_stream_step C st (.invoice inv)).2.1 =
          StepOut.yielded zap inv
        ∧ ∀ b, inv.bolt11 = some b →
            ∃ note, create_zap_note C keys zap inv = .ok note) := by
  constructor
  · intro hne
    simp [invoice_stream_step, hdec, hza, him, hne]
  · intro he
    constructor
    · simp [invoice_stream_step, hdec, hza, him, he]
    · intro b hb
      rcases hpre : inv.payment_preimage with _ | pre <;>
        simp [create_zap_note, hb, hpre]

/-- Witness for C5: with a request amount of 50000 msat, an invoice of
50000 msat is yielded and its receipt builds, one of 49999 msat is skipped. -/
theorem amount_gate_witness :
    decode_zap_req crypto0 invAmtOk.description = .ok zriAmt
    ∧ zriAmt.amount = some 50000
    ∧ invAmtOk.amount_msat = some 50000
    ∧ invAmtBad.amount_msat = some 49999
    ∧ (invoice_stream_step crypto0 st0 (.invoice invAmtOk)).2.1 =
        StepOut.yielded zriAmt invAmtOk
    ∧ (invoice_stream_step crypto0 st0 (.invoice invAmtBad)).2.1 =
        StepOut.skip
    ∧ create_zap_note crypto0 keys0 zriAmt invAmtOk = .ok noteAmt := by
  refine ⟨rfl, rfl, rfl, rfl, ?_, ?_, rfl⟩
  · exact ((amount_gate crypto0 keys0 st0 invAmtOk zriAmt 50000 50000
      rfl rfl rfl).2 rfl).1
  · exact (amount_gate crypto0 keys0 st0 invAmtBad zriAmt 50000 49999
      rfl rfl rfl).1 (by decide)

/-- C6: the built receipt's tags are, in order, the recipient tag, the
referenced-event tag when present, a bolt11 tag with the invoice's payment
request, a description tag holding the invoice description string verbatim,
and a hex-encoded preimage tag exactly when the invoice carries a preimage;
the build fails with the missing-payment-proof error when the invoice has no
bolt11 string. -/
theorem zap_note_tags (C : Crypto) (keys : Keys) (zri : ZapRequestInfo)
    (inv : WaitanyinvoiceResponse) :
    (inv.bolt11 = none → create_zap_note C keys zri inv = .error .noBolt11)
    ∧ ∀ b, inv.bolt11 = some b →
        ∃ note, create_zap_note C keys zri inv = .ok note
          ∧ note.tags =
              (match zri.e with
               | some e => [zri.p, e]
               | none => [zri.p])
              ++ [Tag.Bolt11 b, Tag.Description inv.description]
              ++ (match inv.payment_preimage with
                  | some pre => [Tag.Preimage (to_hex pre)]
                  | none => []) := by
  constructor
  · intro hn
    simp [create_zap_note, hn]
  · intro b hb
    rcases he : zri.e with _ | e <;>
      rcases hpre : inv.payment_preimage with _ | pre <;>
        simp [create_zap_note, to_event, hb, he, hpre]

/-- Witness for C6 at a concrete invoice with bolt11 "lnb", description
"za" and preimage byte 0xab; the hex encoding of the preimage is "ab". -/
theorem zap_note_tags_witness :
    invAmtOk.bolt11 = some "lnb"
    ∧ create_zap_note crypto0 keys0 zriAmt invAmtOk = .ok noteAmt
    ∧ noteAmt.tags =
        [tagP0, Tag.Bolt11 "lnb", Tag.Description "za",
         Tag.Preimage "ab"] := by
  refine ⟨rfl, ?_, by decide⟩
  obtain ⟨note, h1, -⟩ :=
    (zap_note_tags crypto0 keys0 zriAmt invAmtOk).2 "lnb" rfl
  exact rfl

/-- C7: a description that parses as an event whose signature fails
verification against its own declared public key is rejected by
decode_zap_req with the invalid-signature error, and the loop consumes any
invoice carrying such a description without yielding it, so no receipt is
ever produced from an unsigned or forged request. -/
theorem decode_rejects_bad_sig (C : Crypto) (d : String) (ev : Event)
    (hp : C.parseEvent d = some ev)
    (hv : C.verifyEvent ev = false) :
    decode_zap_req C d = .error .invalidSignature
    ∧ ∀ st inv, inv.description = d →
        (invoice_stream_step C st (.invoice inv)).2.1 = StepOut.skip := by
  have hdec : decode_zap_req C d = .error .invalidSignature := by
    simp [decode_zap_req, hp, hv]
  refine ⟨hdec, fun st inv hd => ?_⟩
  simp [invoice_stream_step, hd, hdec]

/-- Witness for C7 under capabilities whose verification always fails. -/
theorem decode_rejects_bad_sig_witness :
    cryptoBad.parseEvent "z" = some ev0
    ∧ cryptoBad.verifyEvent ev0 = false
    ∧ decode_zap_req cryptoBad "z" = .error ZapError.invalidSignature
    ∧ (invoice_stream_step cryptoBad st0 (.invoice inv0)).2.1 =
        StepOut.skip :=
  ⟨rfl, rfl, (decode_rejects_bad_sig cryptoBad "z" ev0 rfl rfl).1,
    (decode_rejects_bad_sig cryptoBad "z" ev0 rfl rfl).2 st0 inv0 rfl⟩

/-- C8: for a parsed, signature-valid event, decode fails with the
recipient-count error unless there is exactly one p tag; with exactly one p
tag, zero e tags succeed with no referenced-event field, exactly one e tag
succeeds with that tag, and two or more e tags fail with the
reference-count error. -/
theorem decode_cardinality (C : Crypto) (d : String) (ev : Event)
    (hp : C.parseEvent d = some ev)
    (hv : C.verifyEvent ev = true) :
    ((ev.tags.filter isPTag).length ≠ 1 →
      decode_zap_req C d = .error .pTagCount)
    ∧ ∀ p, ev.tags.filter isPTag = [p] →
        (ev.tags.filter isETag = [] →
          ∃ zri, decode_zap_req C d = .ok zri ∧ zri.p = p ∧ zri.e = none)
        ∧ (∀ e, ev.tags.filter isETag = [e] →
            ∃ zri, decode_zap_req C d = .ok zri ∧ zri.p = p ∧ zri.e = some e)
        ∧ (2 ≤ (ev.tags.filter isETag).length →
            decode_zap_req C d = .error .eTagCount) := by
  constructor
  · intro hlen
    rcases hps : ev.tags.filter isPTag with _ | ⟨p, _ | ⟨q, ps⟩⟩
    · simp [decode_zap_req, hp, hv, hps]
    · rw [hps] at hlen
      simp at hlen
    · simp [decode_zap_req, hp, hv, hps]
  · intro p hps
    refine ⟨?_, ?_, ?_⟩
    · intro hes
      simp only [decode_zap_req, hp, hv, hps, hes, if_true]
      exact ⟨_, rfl, rfl, rfl⟩
    · intro e hes
      simp only [decode_zap_req, hp, hv, hps, hes, if_true]
      exact ⟨_, rfl, rfl, rfl⟩
    · intro hlen
      rcases hes : ev.tags.filter isETag with _ | ⟨e, _ | ⟨f, es⟩⟩
      · rw [hes] at hlen
        simp at hlen
      · rw [hes] at hlen
        simp at hlen
      · simp [decode_zap_req, hp, hv, hps, hes]

/-- Witness for C8 at an event with one p tag and no e tags. -/
theorem decode_cardinality_witness :
    crypto0.parseEvent "z" = some ev0
    ∧ crypto0.verifyEvent ev0 = true
    ∧ ev0.tags.filter isPTag = [tagP0]
    ∧ ev0.tags.filter isETag = []
    ∧ decode_zap_req crypto0 "z" = .ok zri0
    ∧ zri0.p = tagP0 ∧ zri0.e = none := by
  refine ⟨rfl, rfl, rfl, rfl, ?_, rfl, rfl⟩
  obtain ⟨zri, h1, -, -⟩ :=
    ((decode_cardinality crypto0 "z" ev0 rfl rfl).2 tagP0 rfl).1 rfl
  exact rfl

/-- Invariant of the consumption loop: starting from a state whose cursor
and persisted checkpoint both hold n, a run satisfying the backend contract
keeps the persisted checkpoint equal to the most recently observed pay
index after every response, the observed pay indexes strictly increase from
n, and the persisted values never decrease. -/
theorem loop_run_invariant (C : Crypto) :
    ∀ (rs : List BackendResp) (n : Nat), ValidFrom (some n) rs →
      List.map LoopState.persisted
          (runStates C { cursor := some n, persisted := some n } rs)
        = List.map some (lastObservedFrom n rs)
      ∧ List.Chain' (· < ·) (n :: observedIdxs rs)
      ∧ List.Chain' (· ≤ ·) (n :: lastObservedFrom n rs) := by
  intro rs
  induction rs with
  | nil =>
    intro n _
    simp [runStates, observedIdxs, lastObservedFrom]
  | cons r rs ih =>
    intro n h
    cases r with
    | rpcError =>
      have h' : ValidFrom (some n) rs := h
      obtain ⟨h1, h2, h3⟩ := ih n h'
      refine ⟨?_, ?_, ?_⟩
      · simpa [runStates, invoice_stream_step, lastObservedFrom] using h1
      · simpa [observedIdxs] using h2
      · simp only [lastObservedFrom, List.chain'_cons]
        exact ⟨le_refl n, h3⟩
    | invoice inv =>
      simp only [ValidFrom] at h
      obtain ⟨hm, hrest⟩ := h
      rcases hidx : inv.pay_index with _ | idx
      · rw [hidx] at hm
        simp at hm
      · rw [hidx] at hm hrest
        simp only [] at hm
        obtain ⟨h1, h2, h3⟩ := ih idx hrest
        refine ⟨?_, ?_, ?_⟩
        · simpa [runStates, invoice_stream_step, lastObservedFrom, hidx]
            using h1
        · simp only [observedIdxs, hidx, List.chain'_cons]
          exact ⟨hm, h2⟩
        · simp only [lastObservedFrom, hidx, List.chain'_cons]
          exact ⟨le_of_lt hm, h3⟩

/-- C3: under the backend contract (each returned invoice carries a pay
index greater than the cursor it was requested with), the pay indexes
observed over a run are non-decreasing, after every checkpoint write the
persisted value equals the most recently observed pay index, and the
persisted value never regresses below the starting index or any earlier
value. -/
theorem observed_monotone_persisted (C : Crypto) (n : Nat)
    (rs : List BackendResp) (h : ValidFrom (some n) rs) :
    List.Chain' (· ≤ ·) (observedIdxs rs)
    ∧ List.map LoopState.persisted
        (runStates C { cursor := some n, persisted := some n } rs)
      = List.map some (lastObservedFrom n rs)
    ∧ List.Chain' (· ≤ ·) (n :: lastObservedFrom n rs) := by
  obtain ⟨h1, h2, h3⟩ := loop_run_invariant C rs n h
  refine ⟨?_, h1, h3⟩
  exact (h2.tail).imp fun _ _ hab => le_of_lt hab

/-- Witness for C3 on a concrete three-response run. -/
theorem observed_monotone_persisted_witness :
    ValidFrom (some 0) run0
    ∧ List.Chain' (· ≤ ·) (observedIdxs run0)
    ∧ List.map LoopState.persisted (runStates crypto0 st0 run0)
      = List.map some (lastObservedFrom 0 run0)
    ∧ List.Chain' (· ≤ ·) (0 :: lastObservedFrom 0 run0) := by
  have hv : ValidFrom (some 0) run0 := by
    norm_num [ValidFrom, run0, invA, invB, inv0]
  exact ⟨hv, observed_monotone_persisted crypto0 0 run0 hv⟩

/-- A relay environment where endpoint r1 accepts the connection but the
send fails, and every other endpoint works. -/
def envX : String → RelayBehavior :=
  fun r => if r = "r1" then .sendFail else .sendOk

/-- A relay environment where endpoint c refuses the connection and every
other endpoint works. -/
def envY : String → RelayBehavior :=
  fun r => if r = "c" then .connectFail else .sendOk

/-- C4 counterexample: broadcasting a verified note to the relay list
[r1, r3] where the send to r1 fails panics the broadcast (the expect on
write_message), so the call as a whole fails and r3 is never attempted —
contrary to the claim that endpoint failures never abort the remaining
endpoints and the call never fails. -/
theorem broadcast_send_failure_aborts :
    crypto0.verifyEvent ev0 = true
    ∧ envX "r1" = RelayBehavior.sendFail
    ∧ broadcast_zap_note crypto0 envX ["r1", "r3"] ev0 =
        (BroadcastOutcome.panicked "r1", ["r1"], []) := by decide

/-- All endpoints are attempted and the loop returns Ok when no send
fails; a connection failure only skips its own endpoint. -/
theorem broadcast_loop_attempts_all (env : String → RelayBehavior) :
    ∀ relays : List String,
      (∀ r ∈ relays, env r ≠ RelayBehavior.sendFail) →
      (broadcast_loop env relays).1 = BroadcastOutcome.ok
      ∧ (broadcast_loop env relays).2.1 = relays := by
  intro relays
  induction relays with
  | nil => exact fun _ => ⟨rfl, rfl⟩
  | cons r rest ih =>
    intro h
    have hr := h r (List.mem_cons_self r rest)
    have hrest := fun x hx => h x (List.mem_cons_of_mem r hx)
    obtain ⟨h1, h2⟩ := ih hrest
    cases henv : env r with
    | connectFail => simp [broadcast_loop, henv, h1, h2]
    | sendFail => exact absurd henv hr
    | sendOk => simp [broadcast_loop, henv, h1, h2]

/-- C4 amended: a connection failure at one endpoint does not abort the
attempts to the remaining endpoints; but a failed send panics, abandoning
the remaining endpoints, and a note failing self-verification makes the
call fail, so the call only never-fails when the note verifies and no send
fails — in which case every endpoint is attempted and the call returns
Ok. -/
theorem broadcast_isolation_amended (C : Crypto)
    (env : String → RelayBehavior) (relays : List String)
    (zap_note : Event)
    (hv : C.verifyEvent zap_note = true)
    (hs : ∀ r ∈ relays, env r ≠ RelayBehavior.sendFail) :
    (broadcast_zap_note C env relays zap_note).1 = BroadcastOutcome.ok
    ∧ (broadcast_zap_note C env relays zap_note).2.1 = relays
    ∧ ∀ r rest, env r = RelayBehavior.connectFail →
        broadcast_loop env (r :: rest) =
          ((broadcast_loop env rest).1,
            r :: (broadcast_loop env rest).2.1,
            (broadcast_loop env rest).2.2) := by
  obtain ⟨h1, h2⟩ := broadcast_loop_attempts_all env relays hs
  refine ⟨?_, ?_, ?_⟩
  · simpa [broadcast_zap_note, hv] using h1
  · simpa [broadcast_zap_note, hv] using h2
  · intro r rest hr
    simp [broadcast_loop, hr]

/-- Witness for the amended C4: with endpoint c refusing connections, the
broadcast to [c, d] still attempts both endpoints, delivers to d and
returns Ok. -/
theorem broadcast_isolation_amended_witness :
    crypto0.verifyEvent ev0 = true
    ∧ (broadcast_zap_note crypto0 envY ["c", "d"] ev0).1 =
        BroadcastOutcome.ok
    ∧ (broadcast_zap_note crypto0 envY ["c", "d"] ev0).2.1 = ["c", "d"]
    ∧ (broadcast_zap_note crypto0 envY ["c", "d"] ev0).2.2 = ["d"] := by
  have hs : ∀ r ∈ ["c", "d"], envY r ≠ RelayBehavior.sendFail := by decide
  obtain ⟨h1, h2, -⟩ :=
    broadcast_isolation_amended crypto0 envY ["c", "d"] ev0 rfl hs
  exact ⟨rfl, h1, h2, by decide⟩

end ClnZapper
